import Mathlib

/-!
Shallow embedding of the RMS verification scripts.

Each Python script in this repository is a straight-line sequence of calls
into external systems: a Playwright-driven browser, the web application
under test at localhost:3000, and the Supabase auth API.  Every such
external call either succeeds or raises an exception; an execution is
therefore determined by which calls succeed, and we record that choice in
an environment structure of Booleans, one per call site (in source order).
Local observable effects are computed deterministically from the
environment: screenshot files written (in order), console prints, whether
the script's own browser.close() call ran, whether the execution ended in
an uncaught exception, and, for the CSV-import script, the local file
system modelled as a map from paths to optional contents.

Modelling conventions, stated once:
- page interactions (goto, click, fill, wait_for_selector, set_input_files)
  and Playwright expect-assertions are fallible: each gets one Boolean;
  a failing expect raises AssertionError, a failing interaction raises a
  Playwright error, and both are ordinary Python Exceptions;
- screenshots, print calls and local file reads/writes/removes are
  modelled as infallible;
- exiting a `with sync_playwright()` block stops the Playwright driver on
  every path (normal or exceptional); that teardown happens outside the
  script functions modelled here and is noted in comments where relevant.
-/

namespace RMS

/-- Observable outcome of one browser-script execution: screenshot paths
written (in order), console prints (in order), whether the script's own
`browser.close()` call was executed, whether the execution terminated with
an uncaught exception, and whether a browser was launched at all. -/
structure RunResult where
  screenshots : List String
  prints : List String
  closeCalled : Bool
  raises : Bool
  launched : Bool
  deriving DecidableEq

namespace VerifyBillingAddress

/-- Environment for `jules-scratch/verification/verify_billing_address.py`:
one Boolean per external call, in source order, true when the call
succeeds. -/
structure Env where
  launchOk : Bool       -- line 4: chromium.launch
  ctxPageOk : Bool      -- lines 5-6: new_context and new_page (before the try)
  gotoOk : Bool         -- line 10: goto /auth/login
  cookiesOk : Bool      -- line 13: click "Alle akzeptieren"
  emailOk : Bool        -- line 16: fill e-mail
  passwordOk : Bool     -- line 17: fill password
  loginOk : Bool        -- line 20: click "Anmelden"
  urlIsHome : Bool      -- line 24: expect(page).to_have_url(".../home", timeout 10000)
  menuOk : Bool         -- line 31: click user menu
  settingsOk : Bool     -- line 34: click menu item "Einstellungen"
  dialogVisible : Bool  -- line 38: expect settings dialog visible
  billingVisible : Bool -- line 42: expect "Rechnungsadresse" visible
  deriving DecidableEq

def loginFailurePath : String := "jules-scratch/verification/login_failure.png"

def successPath : String := "jules-scratch/verification/billing_address_verification.png"

def loginFailureMsg : String :=
  "Login failed. Screenshot saved to jules-scratch/verification/login_failure.png"

def successMsg : String :=
  "Verification successful. Screenshot saved to jules-scratch/verification/billing_address_verification.png"

/-- Try-block steps before the URL check (lines 10-20).  No handler catches
a failure of any of these, so the first failure jumps straight to the
finally; all five failure branches are observationally identical, which
lets the five steps be summarised by their conjunction. -/
def preUrlOk (e : Env) : Bool :=
  e.gotoOk && e.cookiesOk && e.emailOk && e.passwordOk && e.loginOk

/-- Try-block steps after the URL check (lines 31-42); as with `preUrlOk`,
any failure propagates to the finally, and the branches are identical. -/
def postUrlOk (e : Env) : Bool :=
  e.menuOk && e.settingsOk && e.dialogVisible && e.billingVisible

/-- `run_verification(playwright)` (lines 3-49).  The launch and
context/page creation (lines 4-6) precede the try, so a failure there skips
the finally and no close happens.  Inside the try, only the URL expectation
(line 24) has a handler: on AssertionError it screenshots
`login_failure.png`, prints, and re-raises (lines 25-28).  The finally
(lines 48-49) closes the browser on every path that entered the try. -/
def run_verification (e : Env) : RunResult :=
  if !e.launchOk then ⟨[], [], false, true, false⟩
  else if !e.ctxPageOk then ⟨[], [], false, true, true⟩
  else if !(preUrlOk e) then ⟨[], [], true, true, true⟩
  else if !e.urlIsHome then ⟨[loginFailurePath], [loginFailureMsg], true, true, true⟩
  else if !(postUrlOk e) then ⟨[], [], true, true, true⟩
  else ⟨[successPath], [successMsg], true, false, true⟩

end VerifyBillingAddress

namespace VerifySettingsModal

/-- Environment for `jules-scratch/verification/verify_settings_modal.py`,
one Boolean per external call in source order. -/
structure Env where
  launchOk : Bool        -- line 4: chromium.launch
  ctxPageOk : Bool       -- lines 5-6: new_context and new_page
  gotoOk : Bool          -- line 7: goto /auth/login
  emailOk : Bool         -- line 8: fill email input
  passwordOk : Bool      -- line 9: fill password input
  submitOk : Bool        -- line 10: click submit
  menuAppears : Bool     -- line 11: wait_for_selector user menu (the post-login element)
  menuClickOk : Bool     -- line 12: click user menu
  settingsClickOk : Bool -- line 13: click text=Einstellungen
  deriving DecidableEq

def shotPath : String := "jules-scratch/verification/verification.png"

/-- Lines 7-13 in sequence; every failure branch is observationally
identical (the exception propagates out of `run`, skipping the screenshot
and the close), so the steps are summarised by their conjunction. -/
def stepsOk (e : Env) : Bool :=
  e.gotoOk && e.emailOk && e.passwordOk && e.submitOk &&
  e.menuAppears && e.menuClickOk && e.settingsClickOk

/-- `run(playwright)` (lines 3-15).  There is no try/finally here:
`browser.close()` (line 15) runs only when every preceding call succeeded.
On an exceptional exit the launched browser stays open until the
module-level `with sync_playwright()` block exits and stops the driver. -/
def run (e : Env) : RunResult :=
  if !e.launchOk then ⟨[], [], false, true, false⟩
  else if !e.ctxPageOk then ⟨[], [], false, true, true⟩
  else if !(stepsOk e) then ⟨[], [], false, true, true⟩
  else ⟨[shotPath], [], true, false, true⟩

end VerifySettingsModal

namespace VerifyTenantPageRedesign

/-- Environment for
`jules-scratch/verification/verify_tenant_page_redesign.py`, one Boolean
per external call in source order. -/
structure Env where
  gotoLoginOk : Bool       -- line 10: goto /auth/login (before the try)
  regLinkOk : Bool         -- line 17: click register link (inside the try)
  regEmailOk : Bool        -- line 20: fill e-mail
  regPasswordOk : Bool     -- line 21: fill password
  regConfirmOk : Bool      -- line 22: fill password confirmation
  regSubmitOk : Bool       -- line 23: click "Registrieren"
  dashboardVisible : Bool  -- line 27: expect Dashboard h1 visible, timeout 15000
  gotoMieterOk : Bool      -- line 35: goto /mieter
  headingMieterOk : Bool   -- line 40: heading "Mieteruebersicht" visible
  headingAktionenOk : Bool -- line 41: heading "Aktionen" visible
  headingFilterOk : Bool   -- line 42: heading "Filter" visible
  headingStatsOk : Bool    -- line 43: heading "Statistiken" visible
  deriving DecidableEq

def shotPath : String := "jules-scratch/verification/verification.png"

/-- Whether the registration try-block (lines 15-32) raises internally.
Its handler is `except Exception: pass`, so this value is swallowed; the
block performs no prints, screenshots or file operations, hence it has no
observable effect and `test_tenant_page_redesign` does not depend on it. -/
def registrationFailed (e : Env) : Bool :=
  !(e.regLinkOk && e.regEmailOk && e.regPasswordOk && e.regConfirmOk &&
    e.regSubmitOk && e.dashboardVisible)

/-- The navigation to /mieter and the four heading assertions
(lines 35-43); any failure raises with no handler in the test, and all
failure branches are observationally identical. -/
def assertsOk (e : Env) : Bool :=
  e.gotoMieterOk && e.headingMieterOk && e.headingAktionenOk &&
  e.headingFilterOk && e.headingStatsOk

/-- `test_tenant_page_redesign(page)` (lines 4-46).  The page is a pytest
fixture, so the test launches and closes no browser itself.  The initial
navigation to the login page (line 10) sits before the try and can make
the test raise; the registration block's outcome is discarded by the
except-pass handler and therefore does not appear below. -/
def test_tenant_page_redesign (e : Env) : RunResult :=
  if !e.gotoLoginOk then ⟨[], [], false, true, false⟩
  else if !(assertsOk e) then ⟨[], [], false, true, false⟩
  else ⟨[shotPath], [], false, false, false⟩

end VerifyTenantPageRedesign

namespace VerifyImportModal

/-- Local file system: a map from paths to the contents of the file there,
none when no file exists at the path. -/
def FS : Type := String → Option String

/-- Writing a file (truncating `open(path, "w")` followed by `write`):
whatever was at the path before is replaced. -/
def FS.write (fs : FS) (p c : String) : FS :=
  fun q => if q = p then some c else fs q

/-- `os.remove(path)`. -/
def FS.remove (fs : FS) (p : String) : FS :=
  fun q => if q = p then none else fs q

/-- A file-system operation performed by the script, in order. -/
inductive FsEvent where
  | write (path content : String)
  | remove (path : String)
  deriving DecidableEq

/-- Observable outcome of one execution of the CSV-import script's `run()`:
the final file system, the file-system operations in order, screenshots,
prints, whether `browser.close()` ran, whether the execution raised, and
whether a browser was launched. -/
structure Result where
  fs : FS
  fsEvents : List FsEvent
  screenshots : List String
  prints : List String
  closeCalled : Bool
  raises : Bool
  launched : Bool

/-- Environment for `verify_import_modal.py`, one Boolean per external
call in source order. -/
structure Env where
  launchOk : Bool         -- line 6: chromium.launch
  newPageOk : Bool        -- line 7: new_page (before the temp-file write and the try)
  gotoOk : Bool           -- line 16: goto /test-import
  dialogVisible : Bool    -- line 18: expect dialog visible, timeout 30000
  setFilesOk : Bool       -- line 20: set_input_files with the CSV path
  mapHeaderVisible : Bool -- line 22: expect column-mapping text visible
  combo1Ok : Bool         -- line 24: open first combobox
  opt1Ok : Bool           -- line 25: choose option "id"
  combo2Ok : Bool         -- line 27: open second combobox
  opt2Ok : Bool           -- line 28: choose option "date"
  combo3Ok : Bool         -- line 30: open third combobox
  opt3Ok : Bool           -- line 31: choose option "value"
  previewOk : Bool        -- line 33: click "Vorschau anzeigen"
  reviewVisible : Bool    -- line 35: expect review text visible
  deriving DecidableEq

def csvPath : String := "/tmp/test_readings.csv"

/-- The literal written at lines 10-13 of the source. -/
def csvContent : String :=
  "id,date,value\nZ-001,2024-01-01,110\nZ-002,2024-01-01,50\nZ-003,2024-01-01,10"

def shotPath : String := "/home/jules/verification/import_modal_styled.png"

def errShotPath : String := "/home/jules/verification/error.png"

def shotMsg : String :=
  "Screenshot taken at /home/jules/verification/import_modal_styled.png"

/-- The try block, lines 15-35: twelve calls in sequence.  The first
failure raises, is caught by the except (lines 41-44) which prints,
screenshots `error.png` and re-raises; every failure branch is
observationally identical, so the block is summarised by the conjunction
of its steps. -/
def tryOk (e : Env) : Bool :=
  e.gotoOk && e.dialogVisible && e.setFilesOk && e.mapHeaderVisible &&
  e.combo1Ok && e.opt1Ok && e.combo2Ok && e.opt2Ok &&
  e.combo3Ok && e.opt3Ok && e.previewOk && e.reviewVisible

/-- `run()` (lines 4-49).  Launch and new_page (lines 6-7) precede both the
temp-file write (lines 10-13) and the try, so if either fails the file
system is untouched and no close happens (the surrounding
`with sync_playwright()` still stops the driver on exit).  Once the write
has happened, the finally (lines 46-49) closes the browser and removes the
file: the try block never deletes it, so the `os.path.exists` guard at
line 48 is true and the removal always fires.  The except branch prints
an interpolated message `Error: {e}`, modelled by its fixed prefix. -/
def run (e : Env) (fs0 : FS) : Result :=
  if !e.launchOk then ⟨fs0, [], [], [], false, true, false⟩
  else if !e.newPageOk then ⟨fs0, [], [], [], false, true, true⟩
  else
    let fs1 := FS.write fs0 csvPath csvContent
    let fsEnd := FS.remove fs1 csvPath
    let events := [FsEvent.write csvPath csvContent, FsEvent.remove csvPath]
    if tryOk e then ⟨fsEnd, events, [shotPath], [shotMsg], true, false, true⟩
    else ⟨fsEnd, events, [errShotPath], ["Error:"], true, true, true⟩

end VerifyImportModal

namespace CreateUser

/-- Behaviour of the external `supabase.auth.sign_up` call in one
execution: it either returns a response object or raises an exception;
both are modelled by their printed rendering. -/
inductive SignUpOutcome where
  | ok (response : String)
  | err (e : String)
  deriving DecidableEq

/-- Observable outcome of `sign_up()`. -/
structure SignUpResult where
  prints : List String
  raises : Bool
  deriving DecidableEq

/-- `sign_up()` (lines 8-15 of `jules-scratch/create_user.py`): the
sign-up call is wrapped in `try ... except Exception as e: print(e)`, so a
returned response is printed and a raised exception is printed, and the
function returns normally either way. -/
def sign_up (o : SignUpOutcome) : SignUpResult :=
  match o with
  | .ok r => ⟨[r], false⟩
  | .err x => ⟨[x], false⟩

def urlVar : String := "NEXT_PUBLIC_SUPABASE_URL"

def keyVar : String := "NEXT_PUBLIC_SUPABASE_ANON_KEY"

/-- Observable outcome of running the whole script: the environment
variable names read (in order), the argument pair handed to
`create_client`, whether `sign_up()` was reached, the prints, and whether
the process died with an uncaught exception. -/
structure ModuleResult where
  envReads : List String
  clientArgs : Option String × Option String
  signUpCalled : Bool
  prints : List String
  raises : Bool

/-- Module-level execution of `create_user.py` (lines 4-6, then the main
guard calling `sign_up()`, lines 17-18).  `os.environ.get` is called with
no default, so a missing variable yields None, which is passed to
`create_client` unchanged.  `create_client` validates its arguments and
raises when either is missing (Supabase client behaviour); the script has
no handler around that construction, so the exception escapes before
`sign_up` is defined-and-called and the script prints nothing itself. -/
def moduleRun (env : String → Option String) (o : SignUpOutcome) : ModuleResult :=
  let url := env urlVar
  let key := env keyVar
  if url.isNone || key.isNone then
    ⟨[urlVar, keyVar], (url, key), false, [], true⟩
  else
    ⟨[urlVar, keyVar], (url, key), true, (sign_up o).prints, (sign_up o).raises⟩

end CreateUser

/-- Billing-script environment in which every external call succeeds. -/
def billingAll : VerifyBillingAddress.Env :=
  ⟨true, true, true, true, true, true, true, true, true, true, true, true⟩

/-- Billing-script environment in which everything succeeds except the
post-login URL check (the application never reaches /home in time). -/
def billingNoUrl : VerifyBillingAddress.Env :=
  { billingAll with urlIsHome := false }

/-- Settings-script environment in which every external call succeeds. -/
def settingsAll : VerifySettingsModal.Env :=
  ⟨true, true, true, true, true, true, true, true, true⟩

/-- Settings-script environment in which everything succeeds except the
wait for the post-login user-menu element. -/
def settingsNoMenu : VerifySettingsModal.Env :=
  { settingsAll with menuAppears := false }

/-- Settings-script environment in which everything succeeds except the
initial navigation to the login page. -/
def settingsNoGoto : VerifySettingsModal.Env :=
  { settingsAll with gotoOk := false }

/-- Tenant-test environment in which every external call succeeds. -/
def tenantAll : VerifyTenantPageRedesign.Env :=
  ⟨true, true, true, true, true, true, true, true, true, true, true, true⟩

/-- Tenant-test environment in which everything succeeds except the
initial navigation to the login page (line 10, outside the try). -/
def tenantNoLogin : VerifyTenantPageRedesign.Env :=
  { tenantAll with gotoLoginOk := false }

/-- Tenant-test environment in which the registration submit fails but
everything else succeeds. -/
def tenantRegFail : VerifyTenantPageRedesign.Env :=
  { tenantAll with regSubmitOk := false }

/-- Import-script environment in which every external call succeeds. -/
def importAll : VerifyImportModal.Env :=
  ⟨true, true, true, true, true, true, true, true, true, true, true, true, true, true⟩

/-- Import-script environment in which the browser launch fails and
everything else would have succeeded. -/
def importNoLaunch : VerifyImportModal.Env :=
  { importAll with launchOk := false }

/-- An empty local file system. -/
def emptyFS : VerifyImportModal.FS := fun _ => none

/-- A file system holding a stale file at the temp-file path, left over
from some earlier activity. -/
def staleFS : VerifyImportModal.FS :=
  fun p => if p = VerifyImportModal.csvPath then some "stale" else none

/-- A process environment defining both Supabase variables. -/
def envBoth : String → Option String := fun _ => some "value"

/-- A process environment defining neither Supabase variable. -/
def envNone : String → Option String := fun _ => none

/-- Claim C1 as stated: for each login-flow script, if the application
presents the expected post-login URL/heading within the configured
timeout then the run completes without raising, and otherwise the run
raises after producing exactly one screenshot at the documented path.
The post-login signals are: the /home URL check for the billing script,
the user-menu selector for the settings script, the Dashboard heading for
the tenant test; the documented paths are the failure screenshot for the
billing script and each script's sole screenshot path for the other two. -/
def claimC1 : Prop :=
  (∀ e : VerifyBillingAddress.Env,
     (e.urlIsHome = true → (VerifyBillingAddress.run_verification e).raises = false) ∧
     (e.urlIsHome = false →
       (VerifyBillingAddress.run_verification e).raises = true ∧
       (VerifyBillingAddress.run_verification e).screenshots =
         [VerifyBillingAddress.loginFailurePath])) ∧
  (∀ e : VerifySettingsModal.Env,
     (e.menuAppears = true → (VerifySettingsModal.run e).raises = false) ∧
     (e.menuAppears = false →
       (VerifySettingsModal.run e).raises = true ∧
       (VerifySettingsModal.run e).screenshots = [VerifySettingsModal.shotPath])) ∧
  (∀ e : VerifyTenantPageRedesign.Env,
     (e.dashboardVisible = true →
       (VerifyTenantPageRedesign.test_tenant_page_redesign e).raises = false) ∧
     (e.dashboardVisible = false →
       (VerifyTenantPageRedesign.test_tenant_page_redesign e).raises = true ∧
       (VerifyTenantPageRedesign.test_tenant_page_redesign e).screenshots =
         [VerifyTenantPageRedesign.shotPath]))

/-- Claim C2 as stated: in every script that opens a browser, the browser
is released by the script's own lifecycle management (`browser.close()`,
or scoped release) on every exit path, and the temporary file, where
created, is removed on every exit path.  The tenant test opens no browser
(its page is a fixture) and is not quantified here. -/
def claimC2 : Prop :=
  (∀ e : VerifyBillingAddress.Env,
     (VerifyBillingAddress.run_verification e).launched = true →
     (VerifyBillingAddress.run_verification e).closeCalled = true) ∧
  (∀ e : VerifySettingsModal.Env,
     (VerifySettingsModal.run e).launched = true →
     (VerifySettingsModal.run e).closeCalled = true) ∧
  (∀ (e : VerifyImportModal.Env) (fs0 : VerifyImportModal.FS),
     ((VerifyImportModal.run e fs0).launched = true →
      (VerifyImportModal.run e fs0).closeCalled = true) ∧
     ((VerifyImportModal.run e fs0).fsEvents ≠ [] →
      (VerifyImportModal.run e fs0).fs VerifyImportModal.csvPath = none))

/-- Claim C4 as stated: on every execution of the CSV-import script's
`run()`, normal or exceptional, `/tmp/test_readings.csv` is absent when
`run()` exits. -/
def claimC4 : Prop :=
  ∀ (e : VerifyImportModal.Env) (fs0 : VerifyImportModal.FS),
    (VerifyImportModal.run e fs0).fs VerifyImportModal.csvPath = none

/-- Claim C9 as stated: the tenant test's outcome depends only on the
navigation to /mieter, the four heading assertions and the final
screenshot — i.e. two executions agreeing on those inputs have the same
outcome. -/
def claimC9 : Prop :=
  ∀ e1 e2 : VerifyTenantPageRedesign.Env,
    e1.gotoMieterOk = e2.gotoMieterOk →
    e1.headingMieterOk = e2.headingMieterOk →
    e1.headingAktionenOk = e2.headingAktionenOk →
    e1.headingFilterOk = e2.headingFilterOk →
    e1.headingStatsOk = e2.headingStatsOk →
    VerifyTenantPageRedesign.test_tenant_page_redesign e1 =
      VerifyTenantPageRedesign.test_tenant_page_redesign e2

/-- Claim C10 as stated: on every execution, the CSV-import script
overwrites whatever is at the temp path when it starts (its first
file-system operation is the unconditional write) and the path is absent
when it exits. -/
def claimC10 : Prop :=
  ∀ (e : VerifyImportModal.Env) (fs0 : VerifyImportModal.FS),
    (VerifyImportModal.run e fs0).fsEvents.head? =
      some (VerifyImportModal.FsEvent.write VerifyImportModal.csvPath
        VerifyImportModal.csvContent) ∧
    (VerifyImportModal.run e fs0).fs VerifyImportModal.csvPath = none

/-- C1 is false as stated: in `verify_settings_modal.py`, when everything
succeeds up to the wait for the post-login user-menu element and that wait
times out, the run raises but writes no screenshot at all, while the claim
demands exactly one screenshot at the documented path. -/
theorem C1_counterexample : ¬ claimC1 := by
  intro h
  have hs := (h.2.1 settingsNoMenu).2 rfl
  exact absurd hs.2 (by decide)

/-- C1 corrected.  Only `verify_billing_address.py` takes a failure
screenshot, and only for the login URL check: once launch, context/page
creation and the pre-URL steps succeed, a failing URL check yields exactly
the `login_failure.png` screenshot and a raise, while a passing URL check
followed by passing post-URL steps completes without raising with the
final screenshot.  The settings script and the tenant test raise with no
screenshot when any required step fails, and complete with exactly their
one documented screenshot when every required step succeeds. -/
theorem C1_amended :
    (∀ e : VerifyBillingAddress.Env,
       e.launchOk = true → e.ctxPageOk = true →
       VerifyBillingAddress.preUrlOk e = true →
       ((e.urlIsHome = false →
          (VerifyBillingAddress.run_verification e).raises = true ∧
          (VerifyBillingAddress.run_verification e).screenshots =
            [VerifyBillingAddress.loginFailurePath]) ∧
        (e.urlIsHome = true → VerifyBillingAddress.postUrlOk e = true →
          (VerifyBillingAddress.run_verification e).raises = false ∧
          (VerifyBillingAddress.run_verification e).screenshots =
            [VerifyBillingAddress.successPath]))) ∧
    (∀ e : VerifySettingsModal.Env,
       ((e.launchOk && e.ctxPageOk && VerifySettingsModal.stepsOk e) = true →
          (VerifySettingsModal.run e).raises = false ∧
          (VerifySettingsModal.run e).screenshots = [VerifySettingsModal.shotPath]) ∧
       ((e.launchOk && e.ctxPageOk && VerifySettingsModal.stepsOk e) = false →
          (VerifySettingsModal.run e).raises = true ∧
          (VerifySettingsModal.run e).screenshots = [])) ∧
    (∀ e : VerifyTenantPageRedesign.Env,
       ((e.gotoLoginOk && VerifyTenantPageRedesign.assertsOk e) = true →
          (VerifyTenantPageRedesign.test_tenant_page_redesign e).raises = false ∧
          (VerifyTenantPageRedesign.test_tenant_page_redesign e).screenshots =
            [VerifyTenantPageRedesign.shotPath]) ∧
       ((e.gotoLoginOk && VerifyTenantPageRedesign.assertsOk e) = false →
          (VerifyTenantPageRedesign.test_tenant_page_redesign e).raises = true ∧
          (VerifyTenantPageRedesign.test_tenant_page_redesign e).screenshots = [])) := by
  refine ⟨fun e h1 h2 h3 => ⟨fun h4 => ?_, fun h4 h5 => ?_⟩,
          fun e => ⟨fun h => ?_, fun h => ?_⟩,
          fun e => ⟨fun h => ?_, fun h => ?_⟩⟩
  · simp [VerifyBillingAddress.run_verification, h1, h2, h3, h4]
  · simp [VerifyBillingAddress.run_verification, h1, h2, h3, h4, h5]
  · rcases Bool.and_eq_true_iff.mp h with ⟨h', h3⟩
    rcases Bool.and_eq_true_iff.mp h' with ⟨h1, h2⟩
    simp [VerifySettingsModal.run, h1, h2, h3]
  · cases h1 : e.launchOk <;> cases h2 : e.ctxPageOk <;>
      cases h3 : VerifySettingsModal.stepsOk e <;>
      simp_all [VerifySettingsModal.run]
  · rcases Bool.and_eq_true_iff.mp h with ⟨h1, h2⟩
    simp [VerifyTenantPageRedesign.test_tenant_page_redesign, h1, h2]
  · cases h1 : e.gotoLoginOk <;> cases h2 : VerifyTenantPageRedesign.assertsOk e <;>
      simp_all [VerifyTenantPageRedesign.test_tenant_page_redesign]

/-- Witness for the corrected C1, at concrete environments: the billing
script with a failed URL check writes exactly the failure screenshot, and
the fully successful settings run does not raise. -/
theorem C1_amended_witness :
    (VerifyBillingAddress.run_verification billingNoUrl).screenshots =
      [VerifyBillingAddress.loginFailurePath] ∧
    (VerifySettingsModal.run settingsAll).raises = false := by
  exact ⟨((C1_amended.1 billingNoUrl rfl rfl rfl).1 rfl).2,
         ((C1_amended.2.1 settingsAll).1 rfl).1⟩

/-- C2 is false as stated: in `verify_settings_modal.py`, when the
navigation to the login page fails after the browser was launched, `run`
exits by exception with the browser launched but `browser.close()` never
executed — the browser is only torn down later, when the module-level
playwright context exits. -/
theorem C2_counterexample : ¬ claimC2 := by
  intro h
  have hc := h.2.1 settingsNoGoto (by decide)
  exact absurd hc (by decide)

/-- C2 corrected.  In `verify_billing_address.py` the browser is closed on
every exit path once the try block is reached (launch and context/page
creation succeeded); in `verify_import_modal.py` likewise once launch and
new_page succeed, and then the temporary file is also removed on every
exit path.  In `verify_settings_modal.py`, `browser.close()` executes
exactly when every step succeeds: on an exceptional exit the script body
does not close the browser, which is released only by the module-level
playwright context teardown.  When browser/context/page setup itself
fails partway, no script reaches its close call. -/
theorem C2_amended :
    (∀ e : VerifyBillingAddress.Env, e.launchOk = true → e.ctxPageOk = true →
       (VerifyBillingAddress.run_verification e).closeCalled = true) ∧
    (∀ (e : VerifyImportModal.Env) (fs0 : VerifyImportModal.FS),
       e.launchOk = true → e.newPageOk = true →
       (VerifyImportModal.run e fs0).closeCalled = true ∧
       (VerifyImportModal.run e fs0).fs VerifyImportModal.csvPath = none) ∧
    (∀ e : VerifySettingsModal.Env,
       (VerifySettingsModal.run e).closeCalled =
         (e.launchOk && e.ctxPageOk && VerifySettingsModal.stepsOk e)) := by
  refine ⟨fun e h1 h2 => ?_, fun e fs0 h1 h2 => ?_, fun e => ?_⟩
  · cases h3 : VerifyBillingAddress.preUrlOk e <;>
      cases h4 : e.urlIsHome <;>
      cases h5 : VerifyBillingAddress.postUrlOk e <;>
      simp [VerifyBillingAddress.run_verification, h1, h2, h3, h4, h5]
  · cases h3 : VerifyImportModal.tryOk e <;>
      simp [VerifyImportModal.run, h1, h2, h3, VerifyImportModal.FS.remove,
        VerifyImportModal.FS.write]
  · cases h1 : e.launchOk <;> cases h2 : e.ctxPageOk <;>
      cases h3 : VerifySettingsModal.stepsOk e <;>
      simp [VerifySettingsModal.run, h1, h2, h3]

/-- Witness for the corrected C2, at concrete environments: the fully
successful import run closes the browser and leaves no temp file, and the
settings run that fails at the login navigation never calls close. -/
theorem C2_amended_witness :
    (VerifyImportModal.run importAll emptyFS).closeCalled = true ∧
    (VerifyImportModal.run importAll emptyFS).fs VerifyImportModal.csvPath = none ∧
    (VerifySettingsModal.run settingsNoGoto).closeCalled = false := by
  refine ⟨(C2_amended.2.1 importAll emptyFS rfl rfl).1,
          (C2_amended.2.1 importAll emptyFS rfl rfl).2, ?_⟩
  have h := C2_amended.2.2 settingsNoGoto
  simpa using h

/-- C3: whenever the CSV-import script reaches the temp-file write (its
launch and new_page succeed), its first file-system operation — performed
before any page interaction, which all live in the later try block — is
the write of exactly the header line and the three literal data rows,
joined by single newlines with nothing else, to /tmp/test_readings.csv. -/
theorem C3_csv_content :
    ∀ (e : VerifyImportModal.Env) (fs0 : VerifyImportModal.FS),
      e.launchOk = true → e.newPageOk = true →
      (VerifyImportModal.run e fs0).fsEvents.head? =
        some (VerifyImportModal.FsEvent.write VerifyImportModal.csvPath
          VerifyImportModal.csvContent) ∧
      VerifyImportModal.csvContent =
        String.intercalate "\n"
          ["id,date,value", "Z-001,2024-01-01,110", "Z-002,2024-01-01,50",
           "Z-003,2024-01-01,10"] := by
  intro e fs0 h1 h2
  refine ⟨?_, by decide⟩
  cases h3 : VerifyImportModal.tryOk e <;>
    simp [VerifyImportModal.run, h1, h2, h3]

/-- Witness for C3 at a concrete input: the fully successful run on an
empty file system first writes the literal CSV payload. -/
theorem C3_csv_content_witness :
    (VerifyImportModal.run importAll emptyFS).fsEvents.head? =
      some (VerifyImportModal.FsEvent.write VerifyImportModal.csvPath
        VerifyImportModal.csvContent) :=
  (C3_csv_content importAll emptyFS rfl rfl).1

/-- C4 is false as stated: when the browser launch fails (lines 6-7 sit
before both the temp-file write and the try/finally), `run()` exits by
exception without touching the file system, so a stale file already
present at /tmp/test_readings.csv still exists when `run()` exits. -/
theorem C4_counterexample : ¬ claimC4 := by
  intro h
  have hc := h importNoLaunch staleFS
  exact absurd hc (by decide)

/-- C4 corrected: once `run()` reaches the temp-file write (the launch and
new_page calls of lines 6-7 succeed), the finally removes the file on both
the normal and the exceptional path, so the path is absent when `run()`
exits; when launch or new_page fails, `run()` raises with the file system
at that path untouched. -/
theorem C4_amended :
    ∀ (e : VerifyImportModal.Env) (fs0 : VerifyImportModal.FS),
      (e.launchOk = true → e.newPageOk = true →
        (VerifyImportModal.run e fs0).fs VerifyImportModal.csvPath = none) ∧
      ((e.launchOk && e.newPageOk) = false →
        (VerifyImportModal.run e fs0).fs VerifyImportModal.csvPath =
          fs0 VerifyImportModal.csvPath) := by
  intro e fs0
  constructor
  · intro h1 h2
    cases h3 : VerifyImportModal.tryOk e <;>
      simp [VerifyImportModal.run, h1, h2, h3, VerifyImportModal.FS.remove]
  · intro h
    cases h1 : e.launchOk <;> cases h2 : e.newPageOk <;>
      simp_all [VerifyImportModal.run]

/-- Witness for the corrected C4 at concrete inputs: the fully successful
run on a file system holding a stale file leaves the path empty, and the
launch-failure run leaves the stale file exactly as it was. -/
theorem C4_amended_witness :
    (VerifyImportModal.run importAll staleFS).fs VerifyImportModal.csvPath = none ∧
    (VerifyImportModal.run importNoLaunch staleFS).fs VerifyImportModal.csvPath =
      staleFS VerifyImportModal.csvPath := by
  exact ⟨(C4_amended importAll staleFS).1 rfl rfl,
         (C4_amended importNoLaunch staleFS).2 rfl⟩

/-- C5: with both environment variables present, whatever the Supabase
sign-up call does — return a response or raise any exception — the script
reaches `sign_up()`, prints exactly the response respectively the caught
exception, and never propagates an exception. -/
theorem C5_sign_up_handles_all :
    ∀ (env : String → Option String) (o : CreateUser.SignUpOutcome),
      (env CreateUser.urlVar).isSome = true →
      (env CreateUser.keyVar).isSome = true →
      (CreateUser.moduleRun env o).raises = false ∧
      (CreateUser.moduleRun env o).signUpCalled = true ∧
      (∀ r, o = CreateUser.SignUpOutcome.ok r →
        (CreateUser.moduleRun env o).prints = [r]) ∧
      (∀ x, o = CreateUser.SignUpOutcome.err x →
        (CreateUser.moduleRun env o).prints = [x]) := by
  intro env o h1 h2
  have h1' : (env CreateUser.urlVar).isNone = false := by
    cases henv : env CreateUser.urlVar <;> simp_all
  have h2' : (env CreateUser.keyVar).isNone = false := by
    cases henv : env CreateUser.keyVar <;> simp_all
  cases o with
  | ok r =>
      refine ⟨by simp [CreateUser.moduleRun, h1', h2', CreateUser.sign_up],
              by simp [CreateUser.moduleRun, h1', h2'], ?_, ?_⟩
      · rintro r' hr
        cases hr
        simp [CreateUser.moduleRun, h1', h2', CreateUser.sign_up]
      · rintro x hx
        cases hx
  | err x =>
      refine ⟨by simp [CreateUser.moduleRun, h1', h2', CreateUser.sign_up],
              by simp [CreateUser.moduleRun, h1', h2'], ?_, ?_⟩
      · rintro r' hr
        cases hr
      · rintro x' hx
        cases hx
        simp [CreateUser.moduleRun, h1', h2', CreateUser.sign_up]

/-- Witness for C5 at concrete inputs: with both variables set and a
failing library call, the script prints the exception text and exits
cleanly. -/
theorem C5_sign_up_handles_all_witness :
    (CreateUser.moduleRun envBoth (CreateUser.SignUpOutcome.err "boom")).raises =
      false ∧
    (CreateUser.moduleRun envBoth (CreateUser.SignUpOutcome.err "boom")).prints =
      ["boom"] := by
  have h := C5_sign_up_handles_all envBoth (CreateUser.SignUpOutcome.err "boom")
    rfl rfl
  exact ⟨h.1, h.2.2.2 "boom" rfl⟩

/-- C6: running the CSV-import script twice under the same external
behaviour is idempotent for the local file system at the temp path — the
state of /tmp/test_readings.csv after the second run equals its state
after the first. -/
theorem C6_idempotent_at_path :
    ∀ (e : VerifyImportModal.Env) (fs0 : VerifyImportModal.FS),
      (VerifyImportModal.run e ((VerifyImportModal.run e fs0).fs)).fs
          VerifyImportModal.csvPath =
        (VerifyImportModal.run e fs0).fs VerifyImportModal.csvPath := by
  intro e fs0
  cases h1 : e.launchOk <;> cases h2 : e.newPageOk <;>
    cases h3 : VerifyImportModal.tryOk e <;>
    simp [VerifyImportModal.run, h1, h2, h3, VerifyImportModal.FS.remove,
      VerifyImportModal.FS.write]

/-- C7: on every execution, the user-creation script reads exactly the two
variables NEXT_PUBLIC_SUPABASE_URL and NEXT_PUBLIC_SUPABASE_ANON_KEY from
the process environment and hands the looked-up values to `create_client`
unchanged — including a missing value, which is passed along as-is rather
than validated or replaced by a default. -/
theorem C7_env_reads_unchanged :
    ∀ (env : String → Option String) (o : CreateUser.SignUpOutcome),
      (CreateUser.moduleRun env o).envReads = [CreateUser.urlVar, CreateUser.keyVar] ∧
      (CreateUser.moduleRun env o).clientArgs =
        (env CreateUser.urlVar, env CreateUser.keyVar) := by
  intro env o
  cases hc : ((env CreateUser.urlVar).isNone || (env CreateUser.keyVar).isNone) <;>
    simp [CreateUser.moduleRun, hc]

/-- C8: whenever either Supabase environment variable is absent, the
script dies during the module-level `create_client` construction —
`sign_up()` is never called, so its exception handler never runs and the
script prints nothing of its own for this failure. -/
theorem C8_missing_env_fails_at_init :
    ∀ (env : String → Option String) (o : CreateUser.SignUpOutcome),
      env CreateUser.urlVar = none ∨ env CreateUser.keyVar = none →
      (CreateUser.moduleRun env o).raises = true ∧
      (CreateUser.moduleRun env o).signUpCalled = false ∧
      (CreateUser.moduleRun env o).prints = [] := by
  intro env o h
  rcases h with h | h <;> simp [CreateUser.moduleRun, h]

/-- Witness for C8 at a concrete input: with no variables set at all, the
script raises at client construction with nothing printed and the sign-up
call never reached. -/
theorem C8_missing_env_fails_at_init_witness :
    (CreateUser.moduleRun envNone (CreateUser.SignUpOutcome.ok "r")).raises = true ∧
    (CreateUser.moduleRun envNone (CreateUser.SignUpOutcome.ok "r")).signUpCalled =
      false ∧
    (CreateUser.moduleRun envNone (CreateUser.SignUpOutcome.ok "r")).prints = [] :=
  C8_missing_env_fails_at_init envNone (CreateUser.SignUpOutcome.ok "r")
    (Or.inl rfl)

/-- C9 is false as stated: the initial navigation to the login page
(line 10) sits outside the registration try-block, so two executions that
agree on the /mieter navigation and all four heading checks can still
differ in outcome — when that first navigation fails, the test raises. -/
theorem C9_counterexample : ¬ claimC9 := by
  intro h
  have hc := h tenantAll tenantNoLogin rfl rfl rfl rfl rfl
  exact absurd hc (by decide)

/-- C9 corrected: the test's outcome depends only on the initial
navigation to the login page, the navigation to /mieter and the four
heading assertions — in particular every exception of the registration
block is caught and discarded, so a failed registration alone never makes
the test raise. -/
theorem C9_amended :
    (∀ e1 e2 : VerifyTenantPageRedesign.Env,
       e1.gotoLoginOk = e2.gotoLoginOk →
       e1.gotoMieterOk = e2.gotoMieterOk →
       e1.headingMieterOk = e2.headingMieterOk →
       e1.headingAktionenOk = e2.headingAktionenOk →
       e1.headingFilterOk = e2.headingFilterOk →
       e1.headingStatsOk = e2.headingStatsOk →
       VerifyTenantPageRedesign.test_tenant_page_redesign e1 =
         VerifyTenantPageRedesign.test_tenant_page_redesign e2) ∧
    (∀ e : VerifyTenantPageRedesign.Env,
       VerifyTenantPageRedesign.registrationFailed e = true →
       e.gotoLoginOk = true → VerifyTenantPageRedesign.assertsOk e = true →
       (VerifyTenantPageRedesign.test_tenant_page_redesign e).raises = false) := by
  constructor
  · intro e1 e2 h1 h2 h3 h4 h5 h6
    simp only [VerifyTenantPageRedesign.test_tenant_page_redesign,
      VerifyTenantPageRedesign.assertsOk, h1, h2, h3, h4, h5, h6]
  · intro e hreg h1 h2
    simp [VerifyTenantPageRedesign.test_tenant_page_redesign, h1, h2]

/-- Witness for the corrected C9 at concrete environments: an execution
whose registration submit fails but whose navigations and headings all
succeed behaves exactly like the fully successful one, and does not
raise. -/
theorem C9_amended_witness :
    VerifyTenantPageRedesign.test_tenant_page_redesign tenantAll =
      VerifyTenantPageRedesign.test_tenant_page_redesign tenantRegFail ∧
    (VerifyTenantPageRedesign.test_tenant_page_redesign tenantRegFail).raises =
      false := by
  exact ⟨C9_amended.1 tenantAll tenantRegFail rfl rfl rfl rfl rfl rfl,
         C9_amended.2 tenantRegFail rfl rfl rfl⟩

/-- C10 is false as stated: when the browser launch fails, the run
performs no file-system operation at all, so a pre-existing file at the
temp path is neither overwritten nor removed. -/
theorem C10_counterexample : ¬ claimC10 := by
  intro h
  have hc := (h importNoLaunch staleFS).1
  exact absurd hc (by decide)

/-- C10 corrected: once launch and new_page succeed, the run's
file-system operations are exactly the unconditional overwrite of the
temp path with the literal CSV payload followed by its removal, so for
every starting file system — in particular one with prior content at that
path — the prior content is lost and the path is absent when `run()`
exits; when launch or new_page fails, the file system is untouched. -/
theorem C10_amended :
    ∀ (e : VerifyImportModal.Env) (fs0 : VerifyImportModal.FS),
      (e.launchOk = true → e.newPageOk = true →
        (VerifyImportModal.run e fs0).fsEvents =
          [VerifyImportModal.FsEvent.write VerifyImportModal.csvPath
             VerifyImportModal.csvContent,
           VerifyImportModal.FsEvent.remove VerifyImportModal.csvPath] ∧
        (VerifyImportModal.run e fs0).fs VerifyImportModal.csvPath = none) ∧
      ((e.launchOk && e.newPageOk) = false →
        (VerifyImportModal.run e fs0).fsEvents = [] ∧
        (VerifyImportModal.run e fs0).fs = fs0) := by
  intro e fs0
  constructor
  · intro h1 h2
    cases h3 : VerifyImportModal.tryOk e <;>
      simp [VerifyImportModal.run, h1, h2, h3, VerifyImportModal.FS.remove]
  · intro h
    cases h1 : e.launchOk <;> cases h2 : e.newPageOk <;>
      simp_all [VerifyImportModal.run]

/-- Witness for the corrected C10 at concrete inputs: a failing run
(review text never appears) on a file system with prior content at the
temp path still overwrites and then removes it. -/
theorem C10_amended_witness :
    (VerifyImportModal.run { importAll with reviewVisible := false } staleFS).fsEvents =
      [VerifyImportModal.FsEvent.write VerifyImportModal.csvPath
         VerifyImportModal.csvContent,
       VerifyImportModal.FsEvent.remove VerifyImportModal.csvPath] ∧
    (VerifyImportModal.run { importAll with reviewVisible := false } staleFS).fs
        VerifyImportModal.csvPath = none := by
  exact (C10_amended { importAll with reviewVisible := false } staleFS).1 rfl rfl

end RMS
